import Mathlib

/-
  Verification development for the blobstore repository.

  The Go sources are shallowly embedded as follows.

  External primitives are parameters of the model:
  the streaming compressor of the klauspost pgzip package is an arbitrary
  `Compressor` (a state type, a step function consuming a chunk and emitting
  compressed output, and a flush emitting the internally buffered rest), and
  the sha256 hash of the standard library is an arbitrary function
  `H : List Byte -> List Byte` applied to the bytes fed to the hash state.
  This makes every theorem about sizes, digests and keys hold for every
  compression level and every digest function, exactly as the code treats
  these stages as opaque writers.

  Side effects (writes to the spool file, remote store calls, removal of the
  temporary file) are made explicit: the traced variants of the operations
  return, next to their Go results, the list of events they perform in
  execution order.
-/

namespace Blobstore

/-- Bytes are modelled as natural numbers; the Go code never does arithmetic
on byte values, so no modular reduction is needed. -/
abbrev Byte := Nat

/-- Errors of the pkg errors library: a base error message, or an error
wrapped with context as done by errors.Wrap in the Go code. -/
inductive Err : Type where
  | msg (s : String) : Err
  | wrap (ctx : String) (e : Err) : Err
deriving DecidableEq, Repr

/-- Model of a streaming compressor (the pgzip writer of blob.go, at any
compression level): an internal state, a step that consumes one chunk and
emits the compressed bytes written downstream during that call, and a flush
emitting whatever the compressor still buffers when it is closed. -/
structure Compressor (sigma : Type) : Type where
  init : sigma
  step : sigma → List Byte → sigma × List Byte
  flush : sigma → List Byte

/-- Observable side effects of the pipeline and of the upload protocol, in
execution order. -/
inductive Ev : Type where
  | passToCompression (b : List Byte) : Ev
  | spoolWrite (b : List Byte) : Ev
  | ccwAdd (n : Nat) : Ev
  | ucwAdd (n : Nat) : Ev
  | hashUpdate (b : List Byte) : Ev
  | progress (n : Nat) : Ev
  | storeGet (key : String) : Ev
  | storeStat (key : String) : Ev
  | storePut (key : String) : Ev
  | storeDelete (key : String) : Ev
  | blobClose : Ev
  | removeSpool : Ev
deriving DecidableEq, Repr

/-- The LocalBlob of blob.go. The spool file (blob.File) is modelled by its
content, the two datacounter WriterCounter wrappers by their counters, the
gzip writer by its compressor state and the sha256 hash state by the bytes
fed to it. -/
structure LocalBlob (sigma : Type) : Type where
  IsDir : Bool
  Reference : String
  file : List Byte
  ccwCount : Nat
  gwState : sigma
  ucwCount : Nat
  hwFed : List Byte

/-- NewLocalBlob of blob.go, after the temporary file was created: counters
zero, fresh compressor state, empty hash state, empty spool file. -/
def NewLocalBlob {sigma : Type} (C : Compressor sigma) : LocalBlob sigma :=
  { IsDir := false
    Reference := ""
    file := []
    ccwCount := 0
    gwState := C.init
    ucwCount := 0
    hwFed := [] }

/-- LocalBlob.Write of blob.go with its event trace. The multiwriter writes
the chunk to ucw, then to hw, then to the progress bar; ucw writes the chunk
to the gzip writer first (which sends its compressed output through ccw into
the spool file) and only then adds the returned count, hence the order of
the events. -/
def LocalBlob.WriteT {sigma : Type} (C : Compressor sigma) (blob : LocalBlob sigma)
    (b : List Byte) : LocalBlob sigma × List Ev :=
  ({ blob with
      gwState := (C.step blob.gwState b).1
      file := blob.file ++ (C.step blob.gwState b).2
      ccwCount := blob.ccwCount + (C.step blob.gwState b).2.length
      ucwCount := blob.ucwCount + b.length
      hwFed := blob.hwFed ++ b },
   [Ev.passToCompression b,
    Ev.spoolWrite (C.step blob.gwState b).2,
    Ev.ccwAdd (C.step blob.gwState b).2.length,
    Ev.ucwAdd b.length,
    Ev.hashUpdate b,
    Ev.progress b.length])

/-- LocalBlob.Write of blob.go, state part. -/
def LocalBlob.Write {sigma : Type} (C : Compressor sigma) (blob : LocalBlob sigma)
    (b : List Byte) : LocalBlob sigma :=
  (LocalBlob.WriteT C blob b).1

/-- State effect of LocalBlob.Close of blob.go: closing the gzip writer
flushes its remaining buffered bytes through ccw into the spool file, then
the spool file is closed. -/
def LocalBlob.CloseS {sigma : Type} (C : Compressor sigma) (blob : LocalBlob sigma) :
    LocalBlob sigma :=
  { blob with
      file := blob.file ++ C.flush blob.gwState
      ccwCount := blob.ccwCount + (C.flush blob.gwState).length }

/-- LocalBlob.Close of blob.go with its result. The outcomes of the two
fallible sub-operations are inputs of the model: gwErr is what gw.Close()
returns, fileErr what blob.File.Close() returns. The Go code discards the
former and returns the latter. -/
def LocalBlob.CloseT {sigma : Type} (C : Compressor sigma) (blob : LocalBlob sigma)
    (gwErr : Option Err) (fileErr : Option Err) : LocalBlob sigma × Option Err :=
  (LocalBlob.CloseS C blob, fileErr)

/-- LocalBlob.Size of blob.go: the compressed size, read from the counter
wrapping the spool file. -/
def LocalBlob.Size {sigma : Type} (blob : LocalBlob sigma) : Int :=
  Int.ofNat blob.ccwCount

/-- LocalBlob.UncompressedSize of blob.go: the pre-compression byte count. -/
def LocalBlob.UncompressedSize {sigma : Type} (blob : LocalBlob sigma) : Int :=
  Int.ofNat blob.ucwCount

/-- LocalBlob.Hash of blob.go: the digest function applied to the bytes fed
to the hash state. -/
def LocalBlob.Hash {sigma : Type} (H : List Byte → List Byte) (blob : LocalBlob sigma) :
    List Byte :=
  H blob.hwFed

/-- Concatenation of a list of chunks. -/
def concatAll : List (List Byte) → List Byte
  | [] => []
  | b :: bs => b ++ concatAll bs

/-- Identity compressor: a concrete instance of the compressor interface
used to evaluate the model on concrete inputs. -/
def identityCompressor : Compressor Unit :=
  { init := ()
    step := fun s b => (s, b)
    flush := fun _ => [] }

theorem write_ucwCount {sigma : Type} (C : Compressor sigma) (blob : LocalBlob sigma)
    (b : List Byte) :
    (LocalBlob.Write C blob b).ucwCount = blob.ucwCount + b.length := rfl

theorem write_hwFed {sigma : Type} (C : Compressor sigma) (blob : LocalBlob sigma)
    (b : List Byte) :
    (LocalBlob.Write C blob b).hwFed = blob.hwFed ++ b := rfl

theorem write_ccwCount {sigma : Type} (C : Compressor sigma) (blob : LocalBlob sigma)
    (b : List Byte) :
    (LocalBlob.Write C blob b).ccwCount
      = blob.ccwCount + (C.step blob.gwState b).2.length := rfl

theorem write_file {sigma : Type} (C : Compressor sigma) (blob : LocalBlob sigma)
    (b : List Byte) :
    (LocalBlob.Write C blob b).file = blob.file ++ (C.step blob.gwState b).2 := rfl

theorem foldl_write_ucw {sigma : Type} (C : Compressor sigma) (bs : List (List Byte))
    (blob : LocalBlob sigma) :
    (bs.foldl (LocalBlob.Write C) blob).ucwCount
      = blob.ucwCount + (bs.map List.length).sum := by
  induction bs generalizing blob with
  | nil => simp
  | cons b rest ih =>
      simp only [List.foldl_cons, List.map_cons, List.sum_cons]
      rw [ih, write_ucwCount]
      omega

theorem foldl_write_hwFed {sigma : Type} (C : Compressor sigma) (bs : List (List Byte))
    (blob : LocalBlob sigma) :
    (bs.foldl (LocalBlob.Write C) blob).hwFed = blob.hwFed ++ concatAll bs := by
  induction bs generalizing blob with
  | nil => simp [concatAll]
  | cons b rest ih =>
      simp only [List.foldl_cons, concatAll]
      rw [ih, write_hwFed, List.append_assoc]

theorem foldl_write_ccw_file {sigma : Type} (C : Compressor sigma) (bs : List (List Byte))
    (blob : LocalBlob sigma) (h : blob.ccwCount = blob.file.length) :
    (bs.foldl (LocalBlob.Write C) blob).ccwCount
      = (bs.foldl (LocalBlob.Write C) blob).file.length := by
  induction bs generalizing blob with
  | nil => exact h
  | cons b rest ih =>
      simp only [List.foldl_cons]
      exact ih (LocalBlob.Write C blob b)
        (by rw [write_ccwCount, write_file, List.length_append, h])

/-- Claim C1: for every LocalBlob and every sequence of write calls followed
by close, the uncompressed size equals the total number of bytes passed to
write, the size equals the total number of bytes written to the spool file,
and the hash is the digest of exactly the concatenation of the bytes passed
to write. The theorem is parametric in the compressor, so it holds
independently of the compression level used, and parametric in the digest
function standing for sha256. -/
theorem blob_write_close_coherence {sigma : Type} (C : Compressor sigma)
    (H : List Byte → List Byte) (bs : List (List Byte)) :
    (LocalBlob.CloseS C (bs.foldl (LocalBlob.Write C) (NewLocalBlob C))).UncompressedSize
        = Int.ofNat (bs.map List.length).sum
    ∧ (LocalBlob.CloseS C (bs.foldl (LocalBlob.Write C) (NewLocalBlob C))).Size
        = Int.ofNat
            (LocalBlob.CloseS C (bs.foldl (LocalBlob.Write C) (NewLocalBlob C))).file.length
    ∧ (LocalBlob.CloseS C (bs.foldl (LocalBlob.Write C) (NewLocalBlob C))).Hash H
        = H (concatAll bs) := by
  refine ⟨?_, ?_, ?_⟩
  · show Int.ofNat (bs.foldl (LocalBlob.Write C) (NewLocalBlob C)).ucwCount
      = Int.ofNat (bs.map List.length).sum
    rw [foldl_write_ucw]
    simp [NewLocalBlob]
  · show Int.ofNat (LocalBlob.CloseS C (bs.foldl (LocalBlob.Write C) (NewLocalBlob C))).ccwCount
      = Int.ofNat (LocalBlob.CloseS C (bs.foldl (LocalBlob.Write C) (NewLocalBlob C))).file.length
    have hinv := foldl_write_ccw_file C bs (NewLocalBlob C) rfl
    show Int.ofNat ((bs.foldl (LocalBlob.Write C) (NewLocalBlob C)).ccwCount
        + (C.flush (bs.foldl (LocalBlob.Write C) (NewLocalBlob C)).gwState).length)
      = Int.ofNat ((bs.foldl (LocalBlob.Write C) (NewLocalBlob C)).file
        ++ C.flush (bs.foldl (LocalBlob.Write C) (NewLocalBlob C)).gwState).length
    rw [List.length_append, hinv]
  · show H (bs.foldl (LocalBlob.Write C) (NewLocalBlob C)).hwFed = H (concatAll bs)
    rw [foldl_write_hwFed]
    simp [NewLocalBlob]

/-- Lowercase hexadecimal digit, as printed by the %x verb of the Go fmt
package. -/
def hexDigit (n : Nat) : Char :=
  if n < 10 then Char.ofNat (48 + n) else Char.ofNat (87 + n)

/-- Two lowercase hexadecimal digits for one byte, as %x prints each byte of
a byte slice. -/
def byteHex (b : Byte) : String :=
  String.mk [hexDigit (b / 16 % 16), hexDigit (b % 16)]

/-- Lowercase hexadecimal rendering of a byte sequence, as %x prints it. -/
def bytesToHex (bs : List Byte) : String :=
  String.join (bs.map byteHex)

/-- The remote object key: Sprintf of blob/%x.gz applied to a digest, as in
CheckDuplicate and UploadBlob of blobstore.go. -/
def remoteFilename (digest : List Byte) : String :=
  "blob/" ++ bytesToHex digest ++ ".gz"

/-- The remote object key computed from a blob, the shared Sprintf
expression of CheckDuplicate and UploadBlob. -/
def remoteFilenameFor {sigma : Type} (H : List Byte → List Byte)
    (blob : LocalBlob sigma) : String :=
  remoteFilename (LocalBlob.Hash H blob)

/-- Answer of the remote store for a lookup: the GetObject call itself can
fail, the subsequent Stat can fail, or the store reports an object with the
given size. -/
inductive StatResponse : Type where
  | getErr (e : Err) : StatResponse
  | statErr (e : Err) : StatResponse
  | found (size : Int) : StatResponse

/-- The remote store as seen by the duplicate check: its answer for every
key. -/
abbrev Store := String → StatResponse

/-- CheckDuplicate of blobstore.go with the blob it leaves behind and its
event trace: compute the key, GetObject, Stat, compare sizes; any failure
yields false. -/
def CheckDuplicateT {sigma : Type} (H : List Byte → List Byte) (store : Store)
    (blob : LocalBlob sigma) : Bool × LocalBlob sigma × List Ev :=
  match store (remoteFilenameFor H blob) with
  | StatResponse.getErr _ =>
      (false, blob, [Ev.storeGet (remoteFilenameFor H blob)])
  | StatResponse.statErr _ =>
      (false, blob,
       [Ev.storeGet (remoteFilenameFor H blob), Ev.storeStat (remoteFilenameFor H blob)])
  | StatResponse.found sz =>
      if LocalBlob.Size blob ≠ sz then
        (false, blob,
         [Ev.storeGet (remoteFilenameFor H blob), Ev.storeStat (remoteFilenameFor H blob)])
      else
        (true, blob,
         [Ev.storeGet (remoteFilenameFor H blob), Ev.storeStat (remoteFilenameFor H blob)])

/-- CheckDuplicate of blobstore.go, result only. -/
def CheckDuplicate {sigma : Type} (H : List Byte → List Byte) (store : Store)
    (blob : LocalBlob sigma) : Bool :=
  (CheckDuplicateT H store blob).1

def msgUploadBlobFail : String := "Error while uploading blob"

def msgPrepFail : String := "Failed to prepare dir blob"

def msgTarFail : String := "Failed to tar dir"

def msgFlushFail : String := "Failed to flush blob dir"

def msgUploadDirFail : String := "Failed to upload dir"

/-- A sample error message for concrete runs. -/
def msgW : String := "disk full"

/-- UploadBlob of blobstore.go with its event trace: FPutObject at the key
derived from the digest; on failure one RemoveObject at the same key whose
outcome is discarded, and the original error wrapped with context; on
success no further store call and no error. putErr is what FPutObject
returns, deleteErr what RemoveObject would return. -/
def UploadBlobT {sigma : Type} (H : List Byte → List Byte)
    (putErr : Option Err) (deleteErr : Option Err) (blob : LocalBlob sigma) :
    Option Err × List Ev :=
  match putErr with
  | some e =>
      (some (Err.wrap msgUploadBlobFail e),
       [Ev.storePut (remoteFilenameFor H blob), Ev.storeDelete (remoteFilenameFor H blob)])
  | none => (none, [Ev.storePut (remoteFilenameFor H blob)])

/-- Environment of one UploadDir run on the remote side: the store state for
the duplicate check and the outcomes of the put and of the best-effort
delete. -/
structure S3Env : Type where
  store : Store
  putErr : Option Err
  deleteErr : Option Err

/-- Environment of one UploadDir run on the local side: outcome of the
temporary file creation, the chunks the tar packer writes into the blob,
the outcome of the packer, and the outcomes of the two sub-operations of
Close. -/
structure DirRunEnv : Type where
  tempErr : Option Err
  packed : List (List Byte)
  tarErr : Option Err
  gwCloseErr : Option Err
  fileCloseErr : Option Err

/-- The dir blob after TarDir has written its chunks, IsDir set as in
UploadDir of blobstore.go. -/
def dirBlobAfterTar {sigma : Type} (C : Compressor sigma) (env : DirRunEnv) :
    LocalBlob sigma :=
  env.packed.foldl (LocalBlob.Write C) { NewLocalBlob C with IsDir := true }

/-- The dir blob after the explicit Close in UploadDir. -/
def closedDirBlob {sigma : Type} (C : Compressor sigma) (env : DirRunEnv) :
    LocalBlob sigma :=
  (LocalBlob.CloseT C (dirBlobAfterTar C env) env.gwCloseErr env.fileCloseErr).1

/-- UploadDir of blobstore.go with its event trace. The two defers
registered after the temporary file exists run on every later return, in
LIFO order: Close, then removal of the spool file; hence every such path
ends with blobClose and removeSpool. -/
def UploadDirT {sigma : Type} (C : Compressor sigma) (H : List Byte → List Byte)
    (s3 : S3Env) (env : DirRunEnv) : (Option (List Byte) × Option Err) × List Ev :=
  match env.tempErr with
  | some e => ((none, some (Err.wrap msgPrepFail e)), [])
  | none =>
    match env.tarErr with
    | some e => ((none, some (Err.wrap msgTarFail e)), [Ev.blobClose, Ev.removeSpool])
    | none =>
      match (LocalBlob.CloseT C (dirBlobAfterTar C env) env.gwCloseErr env.fileCloseErr).2 with
      | some e =>
          ((none, some (Err.wrap msgFlushFail e)), [Ev.blobClose, Ev.removeSpool])
      | none =>
        if (CheckDuplicateT H s3.store (closedDirBlob C env)).1 then
          ((some (LocalBlob.Hash H (closedDirBlob C env)), none),
           (CheckDuplicateT H s3.store (closedDirBlob C env)).2.2
             ++ [Ev.blobClose, Ev.removeSpool])
        else
          match (UploadBlobT H s3.putErr s3.deleteErr (closedDirBlob C env)).1 with
          | some e =>
              ((some (LocalBlob.Hash H (closedDirBlob C env)),
                some (Err.wrap msgUploadDirFail e)),
               (CheckDuplicateT H s3.store (closedDirBlob C env)).2.2
                 ++ (UploadBlobT H s3.putErr s3.deleteErr (closedDirBlob C env)).2
                 ++ [Ev.blobClose, Ev.removeSpool])
          | none =>
              ((some (LocalBlob.Hash H (closedDirBlob C env)), none),
               (CheckDuplicateT H s3.store (closedDirBlob C env)).2.2
                 ++ (UploadBlobT H s3.putErr s3.deleteErr (closedDirBlob C env)).2
                 ++ [Ev.blobClose, Ev.removeSpool])

/-- True for events that mutate the remote store. -/
def isMutEv : Ev → Bool
  | Ev.storePut _ => true
  | Ev.storeDelete _ => true
  | _ => false

/-- True for remote put events. -/
def isPutEv : Ev → Bool
  | Ev.storePut _ => true
  | _ => false

theorem chkT_no_put {sigma : Type} (H : List Byte → List Byte) (store : Store)
    (blob : LocalBlob sigma) :
    ((CheckDuplicateT H store blob).2.2).filter isPutEv = [] := by
  unfold CheckDuplicateT
  rcases store (remoteFilenameFor H blob) with e | e | sz <;>
    simp [isPutEv, List.filter]
  split <;> simp [isPutEv, List.filter]

/-- Claim C2: CheckDuplicate returns true exactly when the remote store
reports an object at the key of the blob whose size equals the compressed
size of the blob; a failing GetObject, a failing Stat or a size mismatch
all yield false. -/
theorem checkDuplicate_iff_found {sigma : Type} (H : List Byte → List Byte)
    (store : Store) (blob : LocalBlob sigma) :
    CheckDuplicate H store blob = true ↔
      store (remoteFilenameFor H blob) = StatResponse.found (LocalBlob.Size blob) := by
  unfold CheckDuplicate CheckDuplicateT
  rcases hres : store (remoteFilenameFor H blob) with e | e | sz <;> simp [hres]
  by_cases hsz : LocalBlob.Size blob = sz
  · subst hsz
    simp
  · simp [hsz]
    intro h
    exact absurd h.symm hsz

/-- Claim C3: the remote object key used by the duplicate check and by the
upload is the string blob/ followed by the lowercase hexadecimal rendering
of the digest followed by .gz; the first store event of CheckDuplicate and
the first store event of UploadBlob both carry exactly this key; and two
blobs with the same digest input map to the same key whatever their
Reference and IsDir fields (and any other field) are. -/
theorem remote_key_format {sigma : Type} (H : List Byte → List Byte) (store : Store)
    (pe de : Option Err) (blob : LocalBlob sigma)
    (d1 d2 : Bool) (r1 r2 : String) (f1 f2 : List Byte) (c1 c2 : Nat)
    (g1 g2 : sigma) (u1 u2 : Nat) (hw : List Byte) :
    remoteFilenameFor H blob = "blob/" ++ bytesToHex (LocalBlob.Hash H blob) ++ ".gz"
    ∧ ((CheckDuplicateT H store blob).2.2).head?
        = some (Ev.storeGet (remoteFilenameFor H blob))
    ∧ ((UploadBlobT H pe de blob).2).head?
        = some (Ev.storePut (remoteFilenameFor H blob))
    ∧ remoteFilenameFor H (LocalBlob.mk d1 r1 f1 c1 g1 u1 hw)
        = remoteFilenameFor H (LocalBlob.mk d2 r2 f2 c2 g2 u2 hw) := by
  refine ⟨rfl, ?_, ?_, rfl⟩
  · unfold CheckDuplicateT
    rcases store (remoteFilenameFor H blob) with e | e | sz <;> simp
    split <;> simp
  · unfold UploadBlobT
    rcases pe with _ | e <;> simp

/-- Claim C7: on a failing put, UploadBlob performs exactly one delete of
the remote object at the key of the blob, its result does not depend on the
outcome of that delete, and it returns the original upload error wrapped
with context; on a successful put it performs no delete and returns no
error. The whole trace is pinned, so the put failure trace holds exactly
one storeDelete event. -/
theorem uploadBlob_failure_spec {sigma : Type} (H : List Byte → List Byte)
    (blob : LocalBlob sigma) (e : Err) (d : Option Err) :
    UploadBlobT H (some e) d blob
        = (some (Err.wrap msgUploadBlobFail e),
           [Ev.storePut (remoteFilenameFor H blob),
            Ev.storeDelete (remoteFilenameFor H blob)])
    ∧ UploadBlobT H none d blob
        = (none, [Ev.storePut (remoteFilenameFor H blob)]) :=
  ⟨rfl, rfl⟩

/-- Claim C10: CheckDuplicate is read-only. It returns the blob with every
field unchanged, its event trace holds no put and no delete, and its entire
result is already determined by the answer of the store at the key of the
blob, so two calls can differ only if the remote store state at that key
differs. -/
theorem checkDuplicate_readonly {sigma : Type} (H : List Byte → List Byte)
    (store : Store) (blob : LocalBlob sigma) :
    (CheckDuplicateT H store blob).2.1 = blob
    ∧ ((CheckDuplicateT H store blob).2.2).filter isMutEv = []
    ∧ CheckDuplicateT H store blob
        = CheckDuplicateT H (fun _ => store (remoteFilenameFor H blob)) blob := by
  have hkey : (fun (_ : String) => store (remoteFilenameFor H blob))
      (remoteFilenameFor H blob) = store (remoteFilenameFor H blob) := rfl
  refine ⟨?_, ?_, ?_⟩ <;>
    · unfold CheckDuplicateT
      rcases store (remoteFilenameFor H blob) with e | e | sz <;>
        simp [isMutEv, List.filter] <;> split <;> simp [isMutEv, List.filter]

/-- Claim C4: in a run of UploadDir that reaches the duplicate check (the
temporary file, the packer and the close all succeeded), a positive
duplicate check yields the digest with no error and no put is performed,
while a negative duplicate check followed by a failing upload still yields
the digest, next to the wrapped upload error. -/
theorem uploadDir_dedup_and_error {sigma : Type} (C : Compressor sigma)
    (H : List Byte → List Byte) (s3 : S3Env) (env : DirRunEnv)
    (h1 : env.tempErr = none) (h2 : env.tarErr = none) (h3 : env.fileCloseErr = none) :
    (CheckDuplicate H s3.store (closedDirBlob C env) = true →
        (UploadDirT C H s3 env).1 = (some (LocalBlob.Hash H (closedDirBlob C env)), none)
        ∧ ((UploadDirT C H s3 env).2).filter isPutEv = [])
    ∧ (∀ e : Err, CheckDuplicate H s3.store (closedDirBlob C env) = false →
        s3.putErr = some e →
        (UploadDirT C H s3 env).1
          = (some (LocalBlob.Hash H (closedDirBlob C env)),
             some (Err.wrap msgUploadDirFail (Err.wrap msgUploadBlobFail e)))) := by
  constructor
  · intro hdup
    unfold CheckDuplicate at hdup
    constructor
    · simp [UploadDirT, h1, h2, LocalBlob.CloseT, h3, hdup]
    · simp [UploadDirT, h1, h2, LocalBlob.CloseT, h3, hdup, List.filter_append,
        chkT_no_put, List.filter, isPutEv]
  · intro e hdup hput
    unfold CheckDuplicate at hdup
    simp [UploadDirT, h1, h2, LocalBlob.CloseT, h3, hdup, hput, UploadBlobT]

/-- Concrete run for the dedup branch: identity compressor, identity digest,
one packed chunk of three bytes, a store that reports an object of exactly
that compressed size, so the duplicate check is positive and UploadDir
returns the digest with no error. -/
theorem uploadDir_dedup_and_error_witness :
    (UploadDirT identityCompressor (fun l => l)
      { store := fun _ => StatResponse.found 3, putErr := none, deleteErr := none }
      { tempErr := none, packed := [[1, 2, 3]], tarErr := none,
        gwCloseErr := none, fileCloseErr := none }).1
      = (some [1, 2, 3], none) :=
  ((uploadDir_dedup_and_error identityCompressor (fun l => l)
      { store := fun _ => StatResponse.found 3, putErr := none, deleteErr := none }
      { tempErr := none, packed := [[1, 2, 3]], tarErr := none,
        gwCloseErr := none, fileCloseErr := none }
      rfl rfl rfl).1 (by decide)).1

/-- Claim C5: on every exit path of UploadDir on which the temporary spool
file was created (the packer may fail, the close may fail, the duplicate
check may short-circuit, the upload may fail or succeed), the removal of
the spool file is among the performed events, because both defers run on
every return. -/
theorem uploadDir_cleanup {sigma : Type} (C : Compressor sigma)
    (H : List Byte → List Byte) (s3 : S3Env) (env : DirRunEnv)
    (h : env.tempErr = none) :
    Ev.removeSpool ∈ (UploadDirT C H s3 env).2 := by
  unfold UploadDirT
  rcases h2 : env.tarErr with _ | e
  · simp [h, h2, LocalBlob.CloseT]
    rcases h3 : env.fileCloseErr with _ | e2 <;> simp
    · split
      · simp
      · split <;> simp
  · simp [h, h2]

/-- Concrete run for the cleanup guarantee: a run in which the packer
fails; the spool file removal is still among the events. -/
theorem uploadDir_cleanup_witness :
    Ev.removeSpool ∈ (UploadDirT identityCompressor (fun l => l)
      { store := fun _ => StatResponse.found 0, putErr := none, deleteErr := none }
      { tempErr := none, packed := [], tarErr := some (Err.msg msgW),
        gwCloseErr := none, fileCloseErr := none }).2 :=
  uploadDir_cleanup identityCompressor (fun l => l)
    { store := fun _ => StatResponse.found 0, putErr := none, deleteErr := none }
    { tempErr := none, packed := [], tarErr := some (Err.msg msgW),
      gwCloseErr := none, fileCloseErr := none }
    rfl

/-- True for the three side effects named by the write ordering claim: the
uncompressed counter increment, the hash update and the hand-off to the
compression stage. -/
def isOrderEv : Ev → Bool
  | Ev.ucwAdd _ => true
  | Ev.hashUpdate _ => true
  | Ev.passToCompression _ => true
  | _ => false

/-- Projection of an event trace to the three side effects named by the
write ordering claim. -/
def writeOrderProj (evs : List Ev) : List Ev :=
  evs.filter isOrderEv

/-- Modelled from the spec: the order in which the specification claims the
three side effects of one write call are applied, namely first the
uncompressed-byte counter increment, then the hash update, and only then
the hand-off of the chunk to the compression stage. -/
def specClaimedWriteOrder (b : List Byte) : List Ev :=
  [Ev.ucwAdd b.length, Ev.hashUpdate b, Ev.passToCompression b]

/-- A sample chunk for concrete runs. -/
def chunkW : List Byte := [104, 105]

/-- Claim C6 counterexample: for a concrete two-byte chunk written to a
fresh blob over the identity compressor, the order of side effects the
write call performs is not the order the claim states; the chunk reaches
the compression stage before the uncompressed counter is incremented and
before the hash is updated, because the counter wraps the gzip writer and
the multiwriter feeds the counter before the hash. -/
theorem write_order_counterexample :
    writeOrderProj
        (LocalBlob.WriteT identityCompressor (NewLocalBlob identityCompressor) chunkW).2
      ≠ specClaimedWriteOrder chunkW := by
  decide

/-- Claim C6 amended: for every chunk passed to write, the side effects are
applied in this fixed order before write returns: the chunk is passed to
the compression stage (which writes the emitted compressed bytes to the
spool file and increments the compressed-byte counter), then the
uncompressed-byte counter is incremented, then the running hash is
updated. -/
theorem write_effect_order {sigma : Type} (C : Compressor sigma)
    (blob : LocalBlob sigma) (b : List Byte) :
    writeOrderProj (LocalBlob.WriteT C blob b).2
      = [Ev.passToCompression b, Ev.ucwAdd b.length, Ev.hashUpdate b] := rfl

/-- Claim C8 counterexample: at a concrete input where closing the
compressor fails and closing the spool file succeeds, Close reports no
error at all: the result of gw.Close() is discarded in blob.go, so the
failure of this part of the sealing step is not reported to the caller. -/
theorem close_discards_compressor_error_cex :
    (LocalBlob.CloseT identityCompressor (NewLocalBlob identityCompressor)
        (some (Err.msg msgW)) none).2 = none := rfl

/-- Claim C8 amended: close flushes and closes the compressor, forcing its
internally buffered bytes into the spool file and into the compressed-byte
counter, then closes the spool file; the failure it reports to the caller
is exactly the outcome of the spool-file close, while an error from closing
the compressor is discarded. -/
theorem close_reports_file_close_error {sigma : Type} (C : Compressor sigma)
    (blob : LocalBlob sigma) (g f : Option Err) :
    (LocalBlob.CloseT C blob g f).2 = f
    ∧ (LocalBlob.CloseT C blob g f).1.file = blob.file ++ C.flush blob.gwState
    ∧ (LocalBlob.CloseT C blob g f).1.ccwCount
        = blob.ccwCount + (C.flush blob.gwState).length :=
  ⟨rfl, rfl, rfl⟩

/-- One entry delivered by the filesystem walk of TarDir in tar.go, in walk
order: the full path handed to the callback, the fields of its FileInfo and
the content of the file. -/
structure FileEntry : Type where
  path : String
  name : String
  mode : Nat
  isDir : Bool
  isRegular : Bool
  size : Nat
  modTime : Nat
  content : List Byte
deriving DecidableEq, Repr

/-- The fields of an archive tar header relevant to the entries TarDir
writes. -/
structure TarHeader : Type where
  name : String
  mode : Nat
  size : Nat
  modTime : Nat
  typeflag : Nat
  linkname : String
deriving DecidableEq, Repr

/-- One element of the uncompressed tar stream: a header block or the data
of a regular file. The byte stream is the fixed serialization of this
sequence by the archive tar package. -/
inductive TarItem : Type where
  | header (h : TarHeader) : TarItem
  | data (b : List Byte) : TarItem
deriving DecidableEq, Repr

/-- tar.FileInfoHeader applied to a FileInfo and to its name as link
argument, as TarDir calls it: name, mode, size (zero for non-regular
entries), modification time, a typeflag derived from the mode, and the
link argument for symbolic links. -/
def fileInfoHeader (fi : FileEntry) : TarHeader :=
  { name := fi.name
    mode := fi.mode
    size := if fi.isRegular then fi.size else 0
    modTime := fi.modTime
    typeflag := if fi.isDir then 5 else if fi.isRegular then 0 else 2
    linkname := if fi.isDir ∨ fi.isRegular then "" else fi.name }

/-- True when the first list is an initial run of the second. -/
def leadMatch : List Char → List Char → Bool
  | [], _ => true
  | _ :: _, [] => false
  | p :: ps, c :: cs => p == c && leadMatch ps cs

/-- Fuelled removal of every occurrence of a pattern, scanning left to
right, as strings.Replace with count -1 and empty replacement does. -/
def removeOccFuel : Nat → List Char → List Char → List Char
  | 0, _, s => s
  | _ + 1, _, [] => []
  | fuel + 1, pat, c :: rest =>
    if !pat.isEmpty && leadMatch pat (c :: rest) then
      removeOccFuel fuel pat ((c :: rest).drop pat.length)
    else
      c :: removeOccFuel fuel pat rest

/-- strings.Replace of the source path inside the walked path with the
empty string, count -1. -/
def removeOcc (pat s : List Char) : List Char :=
  removeOccFuel s.length pat s

/-- The path separator of the platform the source targets. -/
def sepChar : Char := '/'

/-- strings.TrimPrefix with the separator string: drop one leading
separator when present. -/
def trimLeadSep (s : List Char) : List Char :=
  match s with
  | [] => []
  | c :: rest => if c = sepChar then rest else c :: rest

/-- The header name TarDir computes: the source path removed from the
walked path, then one leading separator trimmed. -/
def headerName (src path : String) : String :=
  String.mk (trimLeadSep (removeOcc src.toList path.toList))

/-- The tar items TarDir emits for one walked entry: the header built by
tar.FileInfoHeader with its modification time reset to the zero time and
its name replaced by the trimmed relative path, followed by the content of
the file when the entry is a regular file. -/
def tarEntry (src : String) (fi : FileEntry) : List TarItem :=
  TarItem.header
      { fileInfoHeader fi with modTime := 0, name := headerName src fi.path }
    :: (if fi.isRegular then [TarItem.data fi.content] else [])

/-- TarDir of tar.go on the success path: the walk callback runs once per
entry in walk order and appends the items of each entry to the stream. -/
def TarDir (src : String) : List FileEntry → List TarItem
  | [] => []
  | fi :: rest => tarEntry src fi ++ TarDir src rest

/-- Two walked entries that agree on everything except possibly their
modification times. -/
def entryAgrees (a b : FileEntry) : Prop :=
  a.path = b.path ∧ a.name = b.name ∧ a.mode = b.mode ∧ a.isDir = b.isDir
    ∧ a.isRegular = b.isRegular ∧ a.size = b.size ∧ a.content = b.content

/-- Two walks of the same length whose entries pairwise agree on everything
except possibly their modification times. -/
def agreeList : List FileEntry → List FileEntry → Prop
  | [], [] => True
  | a :: as, b :: bs => entryAgrees a b ∧ agreeList as bs
  | _, _ => False

theorem tarEntry_eq (src : String) (a b : FileEntry) (h : entryAgrees a b) :
    tarEntry src a = tarEntry src b := by
  obtain ⟨h1, h2, h3, h4, h5, h6, h7⟩ := h
  simp [tarEntry, fileInfoHeader, h1, h2, h3, h4, h5, h6, h7]

theorem tarDir_congr (src : String) (e1 e2 : List FileEntry) (h : agreeList e1 e2) :
    TarDir src e1 = TarDir src e2 := by
  induction e1 generalizing e2 with
  | nil =>
      cases e2 with
      | nil => rfl
      | cons b bs => exact False.elim h
  | cons a as ih =>
      cases e2 with
      | nil => exact False.elim h
      | cons b bs =>
          obtain ⟨hab, ht⟩ := h
          show tarEntry src a ++ TarDir src as = tarEntry src b ++ TarDir src bs
          rw [tarEntry_eq src a b hab, ih bs ht]

/-- The digest of the blob obtained by streaming the serialized tar items
of a walk into a fresh blob and closing it, for any serialization of the
items into byte chunks, any compressor and any digest function. -/
def blobDigestOfTar {sigma : Type} (C : Compressor sigma) (H : List Byte → List Byte)
    (ser : TarItem → List Byte) (src : String) (es : List FileEntry) : List Byte :=
  LocalBlob.Hash H
    (LocalBlob.CloseS C
      (((TarDir src es).map ser).foldl (LocalBlob.Write C) (NewLocalBlob C)))

/-- Claim C9: packing is deterministic. Two walks of the same directory
tree with unchanged content and unchanged entry ordering (modelled as two
entry lists that agree pairwise on everything except possibly their
modification times, which the packer normalizes) produce the same
uncompressed tar stream, and hence the blobs built from the two streams
carry the same digest. -/
theorem tarDir_deterministic {sigma : Type} (C : Compressor sigma)
    (H : List Byte → List Byte) (ser : TarItem → List Byte) (src : String)
    (e1 e2 : List FileEntry) (h : agreeList e1 e2) :
    TarDir src e1 = TarDir src e2
    ∧ blobDigestOfTar C H ser src e1 = blobDigestOfTar C H ser src e2 := by
  have hstream := tarDir_congr src e1 e2 h
  refine ⟨hstream, ?_⟩
  unfold blobDigestOfTar
  rw [hstream]

/-- A sample file content for concrete runs. -/
def helloBytes : List Byte := [104, 101, 108, 108, 111]

/-- A sample directory path for concrete runs. -/
def srcW : String := "d"

/-- A sample walked file path for concrete runs. -/
def pathW : String := "d/a.txt"

/-- A sample file name for concrete runs. -/
def nameW : String := "a.txt"

/-- Concrete run for determinism: one regular file walked twice with two
different modification times yields the same tar stream. -/
theorem tarDir_deterministic_witness :
    TarDir srcW
        [{ path := pathW, name := nameW, mode := 420, isDir := false,
           isRegular := true, size := 5, modTime := 11, content := helloBytes }]
      = TarDir srcW
        [{ path := pathW, name := nameW, mode := 420, isDir := false,
           isRegular := true, size := 5, modTime := 99, content := helloBytes }] :=
  (tarDir_deterministic identityCompressor (fun l => l) (fun _ => []) srcW
      [{ path := pathW, name := nameW, mode := 420, isDir := false,
         isRegular := true, size := 5, modTime := 11, content := helloBytes }]
      [{ path := pathW, name := nameW, mode := 420, isDir := false,
         isRegular := true, size := 5, modTime := 99, content := helloBytes }]
      ⟨⟨rfl, rfl, rfl, rfl, rfl, rfl, rfl⟩, trivial⟩).1

end Blobstore
